import Mathlib

/-!
Verification of the command dispatch and parallel execution core of the
RedTeam-Console repository against its natural-language specification.

The Python modules `security_validator.py`, `command_executor.py`,
`command_executor_v2.py` and `terminal_manager.py` are shallowly embedded:
pure functions become Lean functions, the mutable task registry becomes an
explicit state value threaded through the transition functions, file reads
and wall-clock time become explicit environment parameters, and the
`while`-loop of `wait_for_tasks` becomes a fuel-indexed iteration whose
`none` result means the loop has not terminated within the given number of
iterations.
-/

namespace PyStr

/-- The whitespace characters stripped by Python `str.strip()`. -/
def pyIsSpace (c : Char) : Bool :=
  c = ' ' || c = '\t' || c = '\n' || c = '\r' || c = '\x0b' || c = '\x0c'

/-- `str.strip()` on a character list: drop leading and trailing whitespace. -/
def stripList (l : List Char) : List Char :=
  ((l.dropWhile pyIsSpace).reverse.dropWhile pyIsSpace).reverse

/-- Python `command.strip()`. -/
def pyStrip (s : String) : String := ⟨stripList s.toList⟩

/-- Python `command.lower()` (ASCII case folding). -/
def pyLower (s : String) : String := ⟨s.toList.map Char.toLower⟩

/-- Python `len(command)`. -/
def pyLen (s : String) : Nat := s.toList.length

/-- Python `command.count(c)` for a single character. -/
def pyCount (s : String) (c : Char) : Nat := s.toList.count c

/-- Helper for Python `needle in hay` on character lists. -/
def subList (n : List Char) : List Char → Bool
  | [] => n.isEmpty
  | c :: rest => n.isPrefixOf (c :: rest) || subList n rest

/-- Python `needle in hay` (substring containment). -/
def pyIn (needle hay : String) : Bool := subList needle.toList hay.toList

/-- Python `s.startswith(pre)`. -/
def pyStartsWith (s pre : String) : Bool := pre.toList.isPrefixOf s.toList

/-- Helper for `str.replace`: fuel-indexed scan replacing each non-overlapping
occurrence of `pat` (fuel `= length of the scanned list` always suffices,
since every step consumes at least one character). -/
def replaceAux (pat rep : List Char) : Nat → List Char → List Char
  | _, [] => []
  | 0, l => l
  | fuel + 1, c :: rest =>
    if !pat.isEmpty && pat.isPrefixOf (c :: rest) then
      rep ++ replaceAux pat rep fuel (List.drop (pat.length - 1) rest)
    else
      c :: replaceAux pat rep fuel rest

/-- Python `s.replace(pat, rep)` (all non-overlapping occurrences). -/
def pyReplace (s pat rep : String) : String :=
  ⟨replaceAux pat.toList rep.toList s.toList.length s.toList⟩

/-- Helper for Python `s.split(sep)` with a one-character separator. -/
def splitCharAux (sep : Char) : List Char → List Char → List String
  | [], acc => [⟨acc.reverse⟩]
  | c :: rest, acc =>
    if c = sep then (⟨acc.reverse⟩ : String) :: splitCharAux sep rest []
    else splitCharAux sep rest (c :: acc)

/-- Python `s.split(sep)` for a one-character separator; `"".split(sep) = [""]`. -/
def pySplitChar (sep : Char) (s : String) : List String :=
  splitCharAux sep s.toList []

/-- Digit string to number, as Python `int` does for a digit-only body. -/
def digitsVal (l : List Char) : Nat :=
  l.foldl (fun n c => 10 * n + (c.toNat - '0'.toNat)) 0

/-- Python `int(s)`: strips whitespace, accepts an optional sign followed by
one or more digits, raises (`none`) otherwise. -/
def pyInt (s : String) : Option Int :=
  match stripList s.toList with
  | '-' :: ds =>
    if !ds.isEmpty && ds.all Char.isDigit then some (-(digitsVal ds : Int)) else none
  | '+' :: ds =>
    if !ds.isEmpty && ds.all Char.isDigit then some ((digitsVal ds : Int)) else none
  | ds =>
    if !ds.isEmpty && ds.all Char.isDigit then some ((digitsVal ds : Int)) else none

end PyStr

namespace PyRe

/-- One atom of the regular expressions appearing in `security_validator.py`.
Every pattern in that file is a flat sequence of (possibly quantified) atoms,
so no nested alternation or grouping is needed. -/
inductive Atom where
  | lit (c : Char)
  | anyChar
  | ws
  | wordB
  | cls (cs : List Char)
deriving Repr, DecidableEq

inductive Quant where
  | one
  | star
  | plus
deriving Repr, DecidableEq

/-- A pattern: a sequence of quantified atoms. -/
abbrev Pattern := List (Atom × Quant)

def isWordChar (c : Char) : Bool := c.isAlphanum || c = '_'

/-- Does the atom match one character (`ci`: `re.IGNORECASE`)?
`wordB` is zero-width and never consumes a character. -/
def atomMatches (ci : Bool) : Atom → Char → Bool
  | .lit c, d => if ci then c.toLower = d.toLower else c = d
  | .anyChar, d => d ≠ '\n'
  | .ws, d => PyStr.pyIsSpace d
  | .wordB, _ => false
  | .cls cs, d =>
    if ci then cs.any (fun c => c.toLower = d.toLower) else cs.contains d

/-- `\b`: position between a word character and a non-word character
(string edges count as non-word). -/
def atBoundary (prev next : Option Char) : Bool :=
  (match prev with | none => false | some c => isWordChar c)
    ≠ (match next with | none => false | some c => isWordChar c)

/-- Backtracking matcher anchored at the current position.  `fuel` bounds the
recursion depth; along every call the pair `(input length, pattern length)`
strictly decreases lexicographically, so a fuel exceeding
`(|s|+1)*(|p|+1)` can never be exhausted and the fueled function computes
the usual backtracking semantics. -/
def matchFuel (ci : Bool) : Nat → Pattern → Option Char → List Char → Bool
  | 0, _, _, _ => false
  | _ + 1, [], _, _ => true
  | fuel + 1, (Atom.wordB, _) :: p, prev, s =>
    atBoundary prev s.head? && matchFuel ci fuel p prev s
  | fuel + 1, (a, Quant.one) :: p, _prev, s =>
    match s with
    | [] => false
    | c :: s2 => atomMatches ci a c && matchFuel ci fuel p (some c) s2
  | fuel + 1, (a, Quant.plus) :: p, _prev, s =>
    match s with
    | [] => false
    | c :: s2 =>
      atomMatches ci a c && matchFuel ci fuel ((a, Quant.star) :: p) (some c) s2
  | fuel + 1, (a, Quant.star) :: p, prev, s =>
    matchFuel ci fuel p prev s ||
      (match s with
       | [] => false
       | c :: s2 =>
         atomMatches ci a c && matchFuel ci fuel ((a, Quant.star) :: p) (some c) s2)

/-- A recursion-depth bound that `matchFuel` can never exhaust. -/
def matchDepth (p : Pattern) (s : List Char) : Nat :=
  (s.length + 1) * (p.length + 1) + 1

/-- Match the pattern at the current position (`prev` is the character just
before the position, used by `\b`). -/
def matchHere (ci : Bool) (p : Pattern) (prev : Option Char) (s : List Char) : Bool :=
  matchFuel ci (matchDepth p s) p prev s

/-- Try to match at this position or at any later one. -/
def searchFrom (ci : Bool) (p : Pattern) (prev : Option Char) : List Char → Bool
  | [] => matchHere ci p prev []
  | c :: s => matchHere ci p prev (c :: s) || searchFrom ci p (some c) s

/-- Python `re.search(p, s) is not None` (with `ci` for `re.IGNORECASE`). -/
def reSearch (ci : Bool) (p : Pattern) (s : String) : Bool :=
  searchFrom ci p none s.toList

/-- A sequence of literal characters. -/
def litSeq (s : String) : Pattern :=
  s.toList.map (fun c => (Atom.lit c, Quant.one))

def oneA (a : Atom) : Atom × Quant := (a, Quant.one)

def starA (a : Atom) : Atom × Quant := (a, Quant.star)

def plusA (a : Atom) : Atom × Quant := (a, Quant.plus)

def wb : Atom × Quant := (Atom.wordB, Quant.one)

def lowerAlpha : List Char :=
  ['a', 'b', 'c', 'd', 'e', 'f', 'g', 'h', 'i', 'j', 'k', 'l', 'm',
   'n', 'o', 'p', 'q', 'r', 's', 't', 'u', 'v', 'w', 'x', 'y', 'z']

end PyRe

namespace SecurityValidator

open PyStr PyRe

/-- `CommandValidator.DANGEROUS_COMMANDS`: each entry pairs the regex source
text (used verbatim inside the produced warning string) with its compiled
form. -/
def DANGEROUS_COMMANDS : List (String × Pattern) :=
  [ ("\\brm\\s+.*-rf\\s*/",
      [wb] ++ litSeq "rm" ++ [plusA .ws, starA .anyChar] ++ litSeq "-rf"
        ++ [starA .ws] ++ litSeq "/"),
    ("\\bdd\\s+if=.*of=/dev/",
      [wb] ++ litSeq "dd" ++ [plusA .ws] ++ litSeq "if=" ++ [starA .anyChar]
        ++ litSeq "of=/dev/"),
    ("\\bmkfs\\.", [wb] ++ litSeq "mkfs."),
    ("\\bfdisk\\b", [wb] ++ litSeq "fdisk" ++ [wb]),
    ("\\bshred\\b", [wb] ++ litSeq "shred" ++ [wb]),
    ("\\bwipefs\\b", [wb] ++ litSeq "wipefs" ++ [wb]),
    ("[:>]\\s*/dev/sd[a-z]",
      [oneA (.cls [':', '>']), starA .ws] ++ litSeq "/dev/sd"
        ++ [oneA (.cls lowerAlpha)]),
    ("\\bfork\\s*\\(\\s*\\)\\s*while\\s*true",
      [wb] ++ litSeq "fork" ++ [starA .ws] ++ litSeq "(" ++ [starA .ws]
        ++ litSeq ")" ++ [starA .ws] ++ litSeq "while" ++ [starA .ws]
        ++ litSeq "true"),
    (":\\(\\)\\\x7b.*\\|.*\\&\\\x7d\\;.*",
      litSeq ":()\x7b" ++ [starA .anyChar] ++ litSeq "|" ++ [starA .anyChar]
        ++ litSeq "&\x7d;" ++ [starA .anyChar]) ]

/-- `CommandValidator.SYSTEM_MODIFYING` (plain substrings as regexes). -/
def SYSTEM_MODIFYING : List (String × Pattern) :=
  [ ("/etc/passwd", litSeq "/etc/passwd"),
    ("/etc/shadow", litSeq "/etc/shadow"),
    ("/etc/sudoers", litSeq "/etc/sudoers"),
    ("/boot/", litSeq "/boot/"),
    ("/sys/", litSeq "/sys/"),
    ("/proc/sys/", litSeq "/proc/sys/") ]

/-- `CommandValidator.NETWORK_SUSPICIOUS`. -/
def NETWORK_SUSPICIOUS : List (String × Pattern) :=
  [ ("\\bnc\\s+.*-l.*-e",
      [wb] ++ litSeq "nc" ++ [plusA .ws, starA .anyChar] ++ litSeq "-l"
        ++ [starA .anyChar] ++ litSeq "-e"),
    ("\\bbash\\s+.*\\|\\s*nc\\b",
      [wb] ++ litSeq "bash" ++ [plusA .ws, starA .anyChar] ++ litSeq "|"
        ++ [starA .ws] ++ litSeq "nc" ++ [wb]),
    ("/dev/tcp/.*\\|\\s*sh",
      litSeq "/dev/tcp/" ++ [starA .anyChar] ++ litSeq "|" ++ [starA .ws]
        ++ litSeq "sh"),
    ("python.*socket.*exec",
      litSeq "python" ++ [starA .anyChar] ++ litSeq "socket"
        ++ [starA .anyChar] ++ litSeq "exec") ]

def blocked_patterns : List (String × Pattern) := DANGEROUS_COMMANDS

def warning_patterns : List (String × Pattern) :=
  SYSTEM_MODIFYING ++ NETWORK_SUSPICIOUS

/-- The `\$\(.*\)` command-substitution heuristic pattern. -/
def cmdSubstRe : Pattern := litSeq "$(" ++ [starA .anyChar] ++ litSeq ")"

/-- The `sudo\s+-S` pattern (matched case-sensitively in the source). -/
def sudoDashS : Pattern := litSeq "sudo" ++ [plusA .ws] ++ litSeq "-S"

/-- `CommandValidator.validate_command`, returning the
`(is_safe, risk_level, warnings)` triple. -/
def validate_command (command : String) : Bool × String × List String :=
  let command_lower := pyStrip (pyLower command)
  match blocked_patterns.find? (fun p => reSearch true p.2 command) with
  | some p =>
    (false, "CRITICAL", ["Blocked: Command matches dangerous pattern: " ++ p.1])
  | none =>
    let wr : List String × String :=
      warning_patterns.foldl
        (fun wr p =>
          if reSearch true p.2 command then
            (wr.1 ++ ["WARNING: Command matches suspicious pattern: " ++ p.1], "HIGH")
          else wr)
        ([], "LOW")
    let wr := if pyLen command > 500 then
        (wr.1 ++ ["WARNING: Command is unusually long"], "MEDIUM") else wr
    let wr := if pyCount command '|' > 5 then
        (wr.1 ++ ["WARNING: Command has many pipes (complex chain)"], "MEDIUM") else wr
    let wr := if reSearch true cmdSubstRe command then
        (wr.1 ++ ["WARNING: Command contains command substitution"], "MEDIUM") else wr
    let wr := if pyIn "sudo" command_lower && !reSearch false sudoDashS command then
        (wr.1 ++ ["INFO: Command uses sudo without -S flag"], wr.2) else wr
    (true, wr.2, wr.1)

end SecurityValidator

namespace CommandExecutorV2

open PyStr

/-- Behaviour of the operating system towards launched child processes:
`t0` is `int(time.time() * 1000)` at batch start, `returnCode`/`output` give
the exit status and captured sink content of the process running a command,
and `finish` gives the wall-clock instant at which that process terminates
(the completion order of the children is arbitrary). -/
structure PEnv where
  t0 : Nat
  returnCode : String → Int
  output : String → String
  finish : String → Nat

/-- One element of `ParallelExecutor.execute_parallel_commands`' `results`. -/
structure TaskResult where
  task_id : String
  command : String
  return_code : Int
  execution_time : Nat
  output : String
  status : String
deriving Repr, DecidableEq

/-- The dictionary returned by `execute_parallel_commands`. -/
structure BatchResult where
  total_tasks : Nat
  successful_tasks : Nat
  failed_tasks : Nat
  total_execution_time : Nat
  results : List TaskResult
  task_ids : List String
deriving Repr, DecidableEq

def mkTaskId (t0 i : Nat) : String :=
  "task_" ++ toString t0 ++ "_" ++ toString i

/-- The launch loop: `for i, cmd in enumerate(commands)`, skipping commands
that are empty after stripping and starting every child before any child is
awaited.  Produces the launched `(task_id, command)` pairs in launch order. -/
def launchAux (t0 : Nat) : Nat → List String → List (String × String)
  | _, [] => []
  | i, cmd :: rest =>
    if pyStrip cmd = "" then launchAux t0 (i + 1) rest
    else (mkTaskId t0 i, cmd) :: launchAux t0 (i + 1) rest

/-- The wait loop: `for process, task_id in processes: process.wait()`, in
launch order.  `clock` is the wall-clock time when the wait starts; waiting
for a child advances it to that child's finish instant (if later), and each
task's `execution_time` is measured from the batch's single start time. -/
def waitAll (env : PEnv) : Nat → List (String × String) → List TaskResult × Nat
  | clock, [] => ([], clock)
  | clock, (tid, cmd) :: rest =>
    let clock2 := max clock (env.finish cmd)
    let rc := env.returnCode cmd
    let r : TaskResult :=
      { task_id := tid, command := cmd, return_code := rc,
        execution_time := clock2 - env.t0, output := env.output cmd,
        status := if rc = 0 then "success" else "failed" }
    let rec2 := waitAll env clock2 rest
    (r :: rec2.1, rec2.2)

/-- `ParallelExecutor.execute_parallel_commands`: launch all children, then
await them in launch order, then aggregate the counts. -/
def execute_parallel_commands (env : PEnv) (commands : List String) : BatchResult :=
  let launched := launchAux env.t0 0 commands
  let waited := waitAll env env.t0 launched
  let results := waited.1
  { total_tasks := results.length,
    successful_tasks := (results.filter (fun r => r.status = "success")).length,
    failed_tasks := (results.filter (fun r => r.status = "failed")).length,
    total_execution_time := waited.2 - env.t0,
    results := results,
    task_ids := launched.map Prod.fst }

/-- Python truthiness of the `(is_safe, risk_level, warnings)` triple that
`validate_command` returns: a non-empty tuple is truthy whatever its
contents, so `bool(security_validator.validate_command(command))` is `True`
even for a blocked command. -/
def tupleTruthy (_v : Bool × String × List String) : Bool := true

/-- The security check at the top of `execute_command`
(`command_executor_v2.py`): the command is rejected exactly when
`not security_validator.validate_command(command)` holds. -/
def routerRejects (command : String) : Bool :=
  !tupleTruthy (SecurityValidator.validate_command command)

/-- The segment parsing of the `parallel_execute:` branch of
`execute_command`: strip the payload, split on `;`, strip each segment and
keep the truthy (non-empty) ones. -/
def parseParallelPayload (command : String) : List String :=
  let commands_str := pyStrip (pyReplace command "parallel_execute:" "")
  ((pySplitChar ';' commands_str).map pyStrip).filter (fun c => c ≠ "")

/-- Stand-in for the `json.dumps` rendering of the summary returned on the
success path (the exact JSON text is irrelevant to the claims and is
abstracted to a deterministic concatenation). -/
def renderBatch (b : BatchResult) : String :=
  "parallel_execution: true; total_tasks: " ++ toString b.total_tasks
    ++ "; successful_tasks: " ++ toString b.successful_tasks
    ++ "; failed_tasks: " ++ toString b.failed_tasks

/-- The `parallel_execute:` branch of `execute_command`
(`command_executor_v2.py`): zero valid segments yield the error triple,
otherwise the segments are run by the parallel executor and a success
triple is returned. -/
def execute_command_parallel (env : PEnv) (command : String) : String × Int × Bool :=
  let commands := parseParallelPayload command
  if commands = [] then
    ("No valid commands provided for parallel execution", -1, true)
  else
    let parallel_result := execute_parallel_commands env commands
    (renderBatch parallel_result, 0, false)

end CommandExecutorV2

namespace TerminalManager

open PyStr

/-- `config.COMMAND_TIMEOUT_SECONDS`. -/
def COMMAND_TIMEOUT_SECONDS : Nat := 120

/-- `TerminalTask` (`terminal_manager.py`).  `process` models the optional
`subprocess.Popen` handle: `none` when no handle exists, `some b` when one
does, with `b` recording whether `terminate()` has been called on it. -/
structure TerminalTask where
  task_id : String
  command : String
  phase : String
  tool_category : String
  expected_outcome : String
  start_time : Nat
  process : Option Bool
  output_file : String
  status : String
  return_code : Option Int
  output : String
  error : String
  execution_time : Nat
deriving Repr, DecidableEq

/-- The registry owned by `TerminalManager`: the `active_tasks` dict
(modelled as an association list in insertion order) and the
`completed_tasks` list. -/
structure TMState where
  active_tasks : List (String × TerminalTask)
  completed_tasks : List TerminalTask
deriving Repr, DecidableEq

/-- Dictionary lookup in `active_tasks`. -/
def lookupTask (d : List (String × TerminalTask)) (k : String) : Option TerminalTask :=
  (d.find? (fun kv => kv.1 = k)).map Prod.snd

/-- `del active_tasks[k]`. -/
def delTask (d : List (String × TerminalTask)) (k : String) :
    List (String × TerminalTask) :=
  d.filter (fun kv => kv.1 ≠ k)

/-- Writing the (possibly mutated) task object back under its key models the
in-place mutation of the object the dict already references. -/
def setTask (d : List (String × TerminalTask)) (k : String) (t : TerminalTask) :
    List (String × TerminalTask) :=
  d.map (fun kv => if kv.1 = k then (k, t) else kv)

/-- The exit-code extraction of `check_task_status`: the first line of the
sink content that starts with `"Exit Code:"`, split at `":"`, second field,
stripped, parsed by `int` (which may raise, hence `Option` on the parse). -/
def exitCodeLine (content : String) : Option String :=
  (pySplitChar '\n' content).find? (fun line => pyStartsWith line "Exit Code:")

def parseExitCode (line : String) : Option Int :=
  pyInt (pyStrip (((pySplitChar ':' line).get? 1).getD ""))

/-- The tail of `check_task_status`: the timeout check.  On timeout the task
is marked `"timeout"`, a best-effort `terminate()` is invoked on the process
handle when one exists, and the task moves from the active to the completed
partition; otherwise the task is returned (and left registered) unchanged. -/
def timeoutCheck (timeout now : Nat) (st : TMState) (task_id : String)
    (task : TerminalTask) : Option TerminalTask × TMState :=
  if now - task.start_time > timeout then
    let task2 := { task with
      status := "timeout",
      execution_time := now - task.start_time,
      process := task.process.map (fun _ => true) }
    (some task2,
      { active_tasks := delTask st.active_tasks task_id,
        completed_tasks := st.completed_tasks ++ [task2] })
  else
    (some task, { st with active_tasks := setTask st.active_tasks task_id task })

/-- `TerminalManager.check_task_status`.  `sink` maps an output-file path to
its current content (`none` when the file does not exist) and `now` is
`time.time()`.  An id that is not in `active_tasks` yields `none`
immediately.  A sink containing the `"Exit Code:"` sentinel completes the
task (parsing the exit code; a line whose integer field fails to parse
raises inside the `try` block, which is swallowed after `status` and
`execution_time` were already mutated, falling through to the timeout
check); otherwise the timeout check runs. -/
def check_task_status (timeout : Nat) (sink : String → Option String) (now : Nat)
    (st : TMState) (task_id : String) : Option TerminalTask × TMState :=
  match lookupTask st.active_tasks task_id with
  | none => (none, st)
  | some task =>
    match sink task.output_file with
    | some content =>
      if pyIn "Exit Code:" content then
        let task1 := { task with
          status := "completed", execution_time := now - task.start_time }
        match exitCodeLine content with
        | none =>
          let task2 := { task1 with output := content }
          (some task2,
            { active_tasks := delTask st.active_tasks task_id,
              completed_tasks := st.completed_tasks ++ [task2] })
        | some line =>
          match parseExitCode line with
          | some rc =>
            let task2 := { task1 with return_code := some rc, output := content }
            (some task2,
              { active_tasks := delTask st.active_tasks task_id,
                completed_tasks := st.completed_tasks ++ [task2] })
          | none => timeoutCheck timeout now st task_id task1
      else timeoutCheck timeout now st task_id task
    | none => timeoutCheck timeout now st task_id task
  
/-- One `for task_id in list(remaining_tasks)` pass of `wait_for_tasks`:
poll every remaining id, collect the ones whose returned task is terminal,
keep the rest. -/
def waitPass (timeout : Nat) (sink : String → Option String) (now : Nat) :
    TMState → List String → List TerminalTask →
    TMState × List String × List TerminalTask
  | st, [], acc => (st, [], acc)
  | st, tid :: rest, acc =>
    let step := check_task_status timeout sink now st tid
    match step.1 with
    | some t =>
      if t.status = "completed" || t.status = "failed" || t.status = "timeout" then
        let rec2 := waitPass timeout sink now step.2 rest (acc ++ [t])
        (rec2.1, rec2.2.1, rec2.2.2)
      else
        let rec2 := waitPass timeout sink now step.2 rest acc
        (rec2.1, tid :: rec2.2.1, rec2.2.2)
    | none =>
      let rec2 := waitPass timeout sink now step.2 rest acc
      (rec2.1, tid :: rec2.2.1, rec2.2.2)

/-- The `while remaining_tasks:` loop of `wait_for_tasks`, fuel-indexed:
`nowAt i` is the wall-clock time at the `i`-th poll (time advances across
the `time.sleep(check_interval)` calls), and a `none` result means the loop
has not terminated within `fuel` iterations — in particular, if the result
is `none` for every fuel, the Python loop never terminates. -/
def waitLoop (timeout : Nat) (sink : String → Option String) (nowAt : Nat → Nat) :
    Nat → Nat → TMState → List String → List TerminalTask →
    Option (List TerminalTask × TMState)
  | 0, _, st, remaining, acc =>
    if remaining = [] then some (acc, st) else none
  | fuel + 1, iter, st, remaining, acc =>
    if remaining = [] then some (acc, st)
    else
      let pass := waitPass timeout sink (nowAt iter) st remaining acc
      waitLoop timeout sink nowAt fuel (iter + 1) pass.1 pass.2.1 pass.2.2

/-- `set(task_ids)`: duplicate removal (modelled in first-occurrence order;
the claims never depend on the iteration order of the set). -/
def dedupFirst (seen : List String) : List String → List String
  | [] => []
  | x :: xs =>
    if seen.contains x then dedupFirst seen xs
    else x :: dedupFirst (x :: seen) xs

/-- `TerminalManager.wait_for_tasks`. -/
def wait_for_tasks (timeout : Nat) (sink : String → Option String)
    (nowAt : Nat → Nat) (fuel : Nat) (st : TMState) (task_ids : List String) :
    Option (List TerminalTask × TMState) :=
  waitLoop timeout sink nowAt fuel 0 st (dedupFirst [] task_ids) []

/-- The per-task dictionary built by `get_task_results`. -/
structure ResultEntry where
  command : String
  phase : String
  tool_category : String
  expected_outcome : String
  status : String
  return_code : Option Int
  execution_time : Nat
  output : String
  error : String
deriving Repr, DecidableEq

def taskEntry (t : TerminalTask) : ResultEntry :=
  { command := t.command, phase := t.phase, tool_category := t.tool_category,
    expected_outcome := t.expected_outcome, status := t.status,
    return_code := t.return_code, execution_time := t.execution_time,
    output := t.output, error := t.error }

/-- `TerminalManager.get_task_results`: for each requested id, the first
matching task of `completed_tasks`, if any — an id with no completed task
simply contributes no entry. -/
def get_task_results (st : TMState) (task_ids : List String) :
    List (String × ResultEntry) :=
  task_ids.filterMap (fun tid =>
    (st.completed_tasks.find? (fun t => t.task_id = tid)).map
      (fun t => (tid, taskEntry t)))

/-- The dictionary built by `TerminalManager.analyze_results`. -/
structure Analysis where
  total_tasks : Nat
  successful_tasks : Nat
  failed_tasks : Nat
  timeout_tasks : Nat
  total_execution_time : Nat
  findings : List String
  recommendations : List String
  summary : String
deriving Repr, DecidableEq

/-- The body of the `for task_id, result in results.items()` loop of
`analyze_results`. -/
def analyzeStep (a : Analysis) (kv : String × ResultEntry) : Analysis :=
  let r := kv.2
  let a := { a with total_execution_time := a.total_execution_time + r.execution_time }
  let a :=
    if r.status = "completed" && r.return_code = some 0 then
      { a with successful_tasks := a.successful_tasks + 1 }
    else if r.status = "timeout" then
      { a with timeout_tasks := a.timeout_tasks + 1 }
    else
      { a with failed_tasks := a.failed_tasks + 1 }
  if r.output = "" then a
  else
    let low := pyLower r.output
    let a :=
      if pyIn "open" low && pyIn "port" low then
        { a with findings := a.findings ++ ["Open ports discovered by " ++ r.command] }
      else a
    let a :=
      if pyIn "vulnerable" low then
        { a with findings := a.findings ++ ["Potential vulnerability found by " ++ r.command] }
      else a
    if pyIn "sql injection" low then
      { a with findings := a.findings ++ ["SQL injection indicators found by " ++ r.command] }
    else a

/-- Decimal rendering of `successful / total * 100` with one decimal digit,
standing in for the `{:.1f}` float formatting of the summary line. -/
def rateTenths (successful total : Nat) : String :=
  let t := successful * 1000 / total
  toString (t / 10) ++ "." ++ toString (t % 10)

/-- `TerminalManager.analyze_results`.  The summary line divides by
`total_tasks`, so an empty result set raises `ZeroDivisionError`, modelled
as `none`. -/
def analyze_results (results : List (String × ResultEntry)) : Option Analysis :=
  let base : Analysis :=
    { total_tasks := results.length, successful_tasks := 0, failed_tasks := 0,
      timeout_tasks := 0, total_execution_time := 0, findings := [],
      recommendations := [], summary := "" }
  let a := results.foldl analyzeStep base
  if results.length = 0 then none
  else
    some { a with summary :=
      "Executed " ++ toString a.total_tasks ++ " tasks with "
        ++ rateTenths a.successful_tasks a.total_tasks
        ++ "% success rate. Found " ++ toString a.findings.length
        ++ " potential findings." }

end TerminalManager

namespace CommandExecutor

open PyStr TerminalManager

/-- Stand-in for the `json.dumps` rendering of the analysis returned by the
success path of `collect_parallel_results`. -/
def renderAnalysis (a : Analysis) : String :=
  "total_tasks: " ++ toString a.total_tasks
    ++ "; successful_tasks: " ++ toString a.successful_tasks
    ++ "; failed_tasks: " ++ toString a.failed_tasks
    ++ "; timeout_tasks: " ++ toString a.timeout_tasks
    ++ "; summary: " ++ a.summary

/-- `collect_parallel_results` (`command_executor.py`): parse the id list,
wait for the tasks, project their results and return the analysis.  A
`none` result means the call never returns (its `wait_for_tasks` loop does
not terminate); a `ZeroDivisionError` from `analyze_results` (inside
`print_results_summary`) is caught by the surrounding `except` and turned
into an error triple. -/
def collect_parallel_results (timeout : Nat) (sink : String → Option String)
    (nowAt : Nat → Nat) (fuel : Nat) (st : TMState) (command : String) :
    Option (String × Int × Bool) :=
  let task_ids :=
    ((pySplitChar ',' (pyReplace command "collect_results:" "")).map pyStrip).filter
      (fun t => t ≠ "")
  match wait_for_tasks timeout sink nowAt fuel st task_ids with
  | none => none
  | some (_completed, st2) =>
    let results := get_task_results st2 task_ids
    match analyze_results results with
    | none => some ("Error collecting parallel results: division by zero", -1, false)
    | some analysis => some (renderAnalysis analysis, 0, false)

end CommandExecutor


section Helpers

open PyStr PyRe SecurityValidator CommandExecutorV2 TerminalManager

/-- The warning loop of `validate_command` sets the risk to `"HIGH"` exactly
when some warning pattern matches, leaving the incoming risk otherwise. -/
lemma warnFold_snd (command : String) (ps : List (String × Pattern))
    (wr : List String × String) :
    (ps.foldl
      (fun wr p =>
        if reSearch true p.2 command then
          (wr.1 ++ ["WARNING: Command matches suspicious pattern: " ++ p.1], "HIGH")
        else wr) wr).2
      = if ps.any (fun p => reSearch true p.2 command) then "HIGH" else wr.2 := by
  induction ps generalizing wr with
  | nil => simp
  | cons q ps ih =>
    simp only [List.foldl_cons, List.any_cons]
    by_cases h : reSearch true q.2 command
    · rw [if_pos h, ih]
      simp [h]
    · have hq := eq_false_of_ne_true h
      rw [if_neg h, ih]
      simp only [hq, Bool.false_or]

end Helpers

/-- C1: for a command matching a blocking pattern (concretely `"rm -rf /"`),
the Security Gate's `validate_command` does return `allowed = false`,
`risk_level = "CRITICAL"` and exactly one warning, but the Router of
`command_executor_v2.py` does **not** reject the command: its check
`if not security_validator.validate_command(command)` tests the truthiness
of a non-empty 3-tuple, which is always `True`, so the rejection branch is
dead and the blocked command proceeds to execution. -/
theorem secgate_blocked_command_not_rejected :
    (SecurityValidator.validate_command "rm -rf /").1 = false
  ∧ (SecurityValidator.validate_command "rm -rf /").2.1 = "CRITICAL"
  ∧ (SecurityValidator.validate_command "rm -rf /").2.2.length = 1
  ∧ CommandExecutorV2.routerRejects "rm -rf /" = false := by decide

/-- C2 counterexample: `"cat /etc/passwd ||||||"` matches no blocking
pattern and matches the `/etc/passwd` warning pattern, yet
`validate_command` reports `risk_level = "MEDIUM"`, not at least `"HIGH"`:
the pipe-count heuristic overwrote the level. -/
theorem warning_risk_downgraded_cex :
    (SecurityValidator.blocked_patterns.all
        (fun p => !PyRe.reSearch true p.2 "cat /etc/passwd ||||||"))
  ∧ (SecurityValidator.warning_patterns.any
        (fun p => PyRe.reSearch true p.2 "cat /etc/passwd ||||||"))
  ∧ (SecurityValidator.validate_command "cat /etc/passwd ||||||").1 = true
  ∧ (SecurityValidator.validate_command "cat /etc/passwd ||||||").2.1 = "MEDIUM" := by
  decide

/-- C2 (amended): a command matching no blocking pattern and at least one
warning pattern is allowed, and its risk level is `"HIGH"` when no
additional heuristic fires, but `"MEDIUM"` as soon as any of the three
heuristics (length over 500, more than five pipes, command substitution)
fires — each heuristic assigns `risk_level = "MEDIUM"` unconditionally,
overwriting (and thereby lowering) an already-`"HIGH"` level. -/
theorem validate_warning_risk (command : String)
    (hb : ∀ p ∈ SecurityValidator.blocked_patterns,
        PyRe.reSearch true p.2 command = false)
    (hw : ∃ p ∈ SecurityValidator.warning_patterns,
        PyRe.reSearch true p.2 command = true) :
    (SecurityValidator.validate_command command).1 = true
  ∧ (SecurityValidator.validate_command command).2.1 =
      (if PyStr.pyLen command > 500 ∨ PyStr.pyCount command '|' > 5
          ∨ PyRe.reSearch true SecurityValidator.cmdSubstRe command
       then "MEDIUM" else "HIGH") := by
  have hfind : SecurityValidator.blocked_patterns.find?
      (fun p => PyRe.reSearch true p.2 command) = none :=
    List.find?_eq_none.mpr (fun p hp => by simp [hb p hp])
  have hany : SecurityValidator.warning_patterns.any
      (fun p => PyRe.reSearch true p.2 command) = true := by
    obtain ⟨p, hp, h⟩ := hw
    exact List.any_eq_true.mpr ⟨p, hp, h⟩
  have hfold : (SecurityValidator.warning_patterns.foldl
      (fun wr p =>
        if PyRe.reSearch true p.2 command then
          (wr.1 ++ ["WARNING: Command matches suspicious pattern: " ++ p.1], "HIGH")
        else wr) (([], "LOW") : List String × String)).2 = "HIGH" := by
    rw [warnFold_snd, hany]
    rfl
  unfold SecurityValidator.validate_command
  rw [hfind]
  refine ⟨rfl, ?_⟩
  by_cases hL : PyStr.pyLen command > 500 <;>
    by_cases hP : PyStr.pyCount command '|' > 5 <;>
      by_cases hS : PyRe.reSearch true SecurityValidator.cmdSubstRe command = true <;>
        by_cases hU : (PyStr.pyIn "sudo" (PyStr.pyStrip (PyStr.pyLower command))
            && !PyRe.reSearch false SecurityValidator.sudoDashS command) = true <;>
          simp [hL, hP, hS, hU, hfold]

/-- C2 witness: `"cat /etc/passwd"` triggers a warning pattern, no blocking
pattern and no heuristic, so the amended statement yields risk `"HIGH"`. -/
theorem validate_warning_risk_witness :
    (SecurityValidator.validate_command "cat /etc/passwd").1 = true
  ∧ (SecurityValidator.validate_command "cat /etc/passwd").2.1 = "HIGH" := by
  have h := validate_warning_risk "cat /etc/passwd" (by decide) (by decide)
  refine ⟨h.1, ?_⟩
  rw [h.2]
  decide

section ExecHelpers

open PyStr CommandExecutorV2

/-- The launch loop launches exactly the commands that are non-empty after
stripping; when all commands are non-empty it launches all of them, in
order. -/
lemma launchAux_map_snd (t0 : Nat) :
    ∀ (commands : List String) (i : Nat),
      (∀ c ∈ commands, pyStrip c ≠ "") →
      (launchAux t0 i commands).map Prod.snd = commands := by
  intro commands
  induction commands with
  | nil => intro i _; rfl
  | cons c cs ih =>
    intro i h
    unfold launchAux
    rw [if_neg (h c (by simp))]
    simp only [List.map_cons]
    rw [ih (i + 1) (fun x hx => h x (by simp [hx]))]

/-- Awaiting the launched processes in launch order yields one result per
launched process, whose `command` field is that process's command. -/
lemma waitAll_map_command (env : PEnv) :
    ∀ (ps : List (String × String)) (clock : Nat),
      ((waitAll env clock ps).1.map (fun r => r.command)) = ps.map Prod.snd := by
  intro ps
  induction ps with
  | nil => intro clock; rfl
  | cons p rest ih =>
    intro clock
    unfold waitAll
    simp only [List.map_cons]
    rw [ih]

/-- Every result of the wait loop carries the environment's return code for
its command, and its status is computed from that return code. -/
lemma waitAll_mem (env : PEnv) :
    ∀ (ps : List (String × String)) (clock : Nat) (r : TaskResult),
      r ∈ (waitAll env clock ps).1 →
      r.return_code = env.returnCode r.command
      ∧ r.status = (if env.returnCode r.command = 0 then "success" else "failed") := by
  intro ps
  induction ps with
  | nil => intro clock r hr; cases hr
  | cons p rest ih =>
    intro clock r hr
    unfold waitAll at hr
    rcases List.mem_cons.mp hr with h | h
    · subst h
      exact ⟨rfl, rfl⟩
    · exact ih _ r h

/-- A list of results each of which is `"success"` or `"failed"` is
partitioned exactly by those two statuses. -/
lemma filter_success_failed :
    ∀ (rs : List CommandExecutorV2.TaskResult),
      (∀ r ∈ rs, r.status = "success" ∨ r.status = "failed") →
      (rs.filter (fun r => r.status = "success")).length
        + (rs.filter (fun r => r.status = "failed")).length = rs.length := by
  intro rs
  induction rs with
  | nil => intro _; rfl
  | cons r rest ih =>
    intro h
    have hr := h r (by simp)
    have hrest := ih (fun x hx => h x (by simp [hx]))
    rcases hr with hs | hs <;>
      simp [List.filter_cons, hs, Nat.add_assoc, Nat.add_comm, Nat.add_left_comm, hrest] <;>
      omega

end ExecHelpers

/-- C3: for a batch of commands that are all non-empty (after stripping),
`execute_parallel_commands` returns exactly one result per command, in the
input order — for every environment, hence for every completion order and
timing of the child processes.  Structurally, the embedded executor first
builds the full launch list (`launchAux`) and only then awaits the children
(`waitAll`), in launch order. -/
theorem run_batch_order_and_count (env : CommandExecutorV2.PEnv)
    (commands : List String)
    (h : ∀ c ∈ commands, PyStr.pyStrip c ≠ "") :
    (CommandExecutorV2.execute_parallel_commands env commands).results.map
        (fun r => r.command) = commands
  ∧ (CommandExecutorV2.execute_parallel_commands env commands).total_tasks
      = commands.length := by
  have hmap :
      (CommandExecutorV2.execute_parallel_commands env commands).results.map
        (fun r => r.command) = commands := by
    unfold CommandExecutorV2.execute_parallel_commands
    rw [waitAll_map_command, launchAux_map_snd env.t0 commands 0 h]
  refine ⟨hmap, ?_⟩
  have hlen :
      ((CommandExecutorV2.execute_parallel_commands env commands).results.map
        (fun r => r.command)).length = commands.length := by rw [hmap]
  rw [List.length_map] at hlen
  exact hlen

/-- Environment for the C3 witness batch. -/
def envOrder : CommandExecutorV2.PEnv :=
  { t0 := 0, returnCode := fun _ => 0,
    output := fun c => if c = "echo A" then "A\n" else "B\n",
    finish := fun c => if c = "echo A" then 9 else 1 }

/-- C3 witness: the two-command batch (whose second command finishes first
in `envOrder`) yields two results in input order. -/
theorem run_batch_order_and_count_witness :
    (CommandExecutorV2.execute_parallel_commands envOrder
        ["echo A", "echo B"]).results.map (fun r => r.command)
      = ["echo A", "echo B"]
  ∧ (CommandExecutorV2.execute_parallel_commands envOrder
        ["echo A", "echo B"]).total_tasks = 2 :=
  run_batch_order_and_count envOrder ["echo A", "echo B"] (by decide)

/-- C4: in every batch result the success and failure counts partition the
total, and every result whose command exits non-zero (per the environment)
is marked `"failed"` and carries exactly that return code. -/
theorem run_batch_counts_and_failed_codes (env : CommandExecutorV2.PEnv)
    (commands : List String) :
    (CommandExecutorV2.execute_parallel_commands env commands).successful_tasks
      + (CommandExecutorV2.execute_parallel_commands env commands).failed_tasks
      = (CommandExecutorV2.execute_parallel_commands env commands).total_tasks
  ∧ ∀ r ∈ (CommandExecutorV2.execute_parallel_commands env commands).results,
      env.returnCode r.command ≠ 0 →
      r.status = "failed" ∧ r.return_code = env.returnCode r.command := by
  constructor
  · unfold CommandExecutorV2.execute_parallel_commands
    apply filter_success_failed
    intro r hr
    have h := (waitAll_mem env _ _ r hr).2
    by_cases h0 : env.returnCode r.command = 0
    · left; rw [h, if_pos h0]
    · right; rw [h, if_neg h0]
  · intro r hr h0
    have h := waitAll_mem env _ _ r hr
    exact ⟨by rw [h.2, if_neg h0], h.1⟩

/-- Environment for the C4 witness batch: `"exit 1"` exits with code 1. -/
def envCodes : CommandExecutorV2.PEnv :=
  { t0 := 0, returnCode := fun c => if c = "exit 1" then 1 else 0,
    output := fun c => if c = "echo ok" then "ok\n" else "",
    finish := fun _ => 0 }

/-- C4 witness: in the batch `["exit 1", "echo ok"]` the counts partition
the total and the `"exit 1"` task is `"failed"` with return code 1. -/
theorem run_batch_counts_witness :
    ((CommandExecutorV2.execute_parallel_commands envCodes
        ["exit 1", "echo ok"]).successful_tasks
      + (CommandExecutorV2.execute_parallel_commands envCodes
          ["exit 1", "echo ok"]).failed_tasks
      = (CommandExecutorV2.execute_parallel_commands envCodes
          ["exit 1", "echo ok"]).total_tasks)
  ∧ ∃ r ∈ (CommandExecutorV2.execute_parallel_commands envCodes
        ["exit 1", "echo ok"]).results,
      r.status = "failed" ∧ r.return_code = 1 := by
  have h := run_batch_counts_and_failed_codes envCodes ["exit 1", "echo ok"]
  refine ⟨h.1,
    ⟨{ task_id := "task_0_0", command := "exit 1", return_code := 1,
       execution_time := 0, output := "", status := "failed" }, ?_, ?_, ?_⟩⟩
  · decide
  · exact (h.2 _ (by decide) (by decide)).1
  · decide

section TrackerHelpers

open PyStr TerminalManager

/-- `check_task_status` on an id absent from `active_tasks` is an immediate
no-op returning `None` — it never reads the sink and never touches the
registry. -/
lemma checkStatusInactive (timeout : Nat) (sink : String → Option String)
    (now : Nat) (st : TMState) (task_id : String)
    (h : lookupTask st.active_tasks task_id = none) :
    check_task_status timeout sink now st task_id = (none, st) := by
  unfold check_task_status
  rw [h]

/-- Deleting a key from the active dictionary makes its lookup fail. -/
lemma lookupTask_delTask (d : List (String × TerminalTask)) (k : String) :
    TerminalManager.lookupTask (TerminalManager.delTask d k) k = none := by
  induction d with
  | nil => rfl
  | cons kv d ih =>
    unfold TerminalManager.delTask at ih ⊢
    by_cases h : kv.1 = k
    · rw [List.filter_cons]
      simp only [h]
      rw [if_neg (by simp)]
      exact ih
    · rw [List.filter_cons]
      rw [if_pos (by simp [h])]
      unfold TerminalManager.lookupTask at ih ⊢
      rw [List.find?_cons]
      simp only [decide_eq_false h]
      exact ih

/-- A polling pass over ids that are all absent from the active registry
changes nothing: every `check_task_status` call returns `None`, so no id is
collected and no state is modified. -/
lemma waitPass_inactive (timeout : Nat) (sink : String → Option String)
    (now : Nat) (st : TMState) :
    ∀ (rem : List String) (acc : List TerminalTask),
      (∀ id ∈ rem, lookupTask st.active_tasks id = none) →
      waitPass timeout sink now st rem acc = (st, rem, acc) := by
  intro rem
  induction rem with
  | nil => intro acc _; rfl
  | cons tid rest ih =>
    intro acc h
    unfold waitPass
    rw [checkStatusInactive timeout sink now st tid (h tid (by simp))]
    simp only []
    rw [ih acc (fun id hid => h id (by simp [hid]))]

/-- The `while remaining_tasks:` loop can never terminate when the remaining
set is non-empty and consists of ids absent from the active registry: each
pass returns `None` for every such id, so nothing is ever removed. -/
lemma waitLoop_stuck (timeout : Nat) (sink : String → Option String)
    (nowAt : Nat → Nat) :
    ∀ (fuel iter : Nat) (st : TMState) (rem : List String)
      (acc : List TerminalTask),
      rem ≠ [] →
      (∀ id ∈ rem, lookupTask st.active_tasks id = none) →
      waitLoop timeout sink nowAt fuel iter st rem acc = none := by
  intro fuel
  induction fuel with
  | zero =>
    intro iter st rem acc hne _
    unfold waitLoop
    rw [if_neg hne]
  | succ n ih =>
    intro iter st rem acc hne hina
    unfold waitLoop
    rw [if_neg hne]
    simp only []
    rw [waitPass_inactive timeout sink (nowAt iter) st rem acc hina]
    exact ih (iter + 1) st rem acc hne hina

end TrackerHelpers

/-- C5: a running task whose sink never contains the `"Exit Code:"` sentinel
and whose timeout has elapsed is transitioned by `check_task_status` to the
`"timeout"` status (and no other terminal status), removed from the active
partition and appended to the completed partition, and `terminate()` is
invoked on its process handle when one exists. -/
theorem tracker_timeout_transition (timeout : Nat)
    (sink : String → Option String) (now : Nat)
    (st : TerminalManager.TMState) (task_id : String)
    (task : TerminalManager.TerminalTask)
    (hlook : TerminalManager.lookupTask st.active_tasks task_id = some task)
    (hsent : ∀ c, sink task.output_file = some c →
        PyStr.pyIn "Exit Code:" c = false)
    (htime : now - task.start_time > timeout) :
    ∃ t, (TerminalManager.check_task_status timeout sink now st task_id).1 = some t
      ∧ t.status = "timeout"
      ∧ t.process = task.process.map (fun _ => true)
      ∧ TerminalManager.lookupTask
          (TerminalManager.check_task_status timeout sink now st task_id).2.active_tasks
          task_id = none
      ∧ t ∈ (TerminalManager.check_task_status timeout sink now st task_id).2.completed_tasks := by
  have hstep :
      TerminalManager.check_task_status timeout sink now st task_id
        = TerminalManager.timeoutCheck timeout now st task_id task := by
    unfold TerminalManager.check_task_status
    rw [hlook]
    cases hs : sink task.output_file with
    | none => simp [hs]
    | some c => simp [hs, hsent c hs]
  rw [hstep]
  unfold TerminalManager.timeoutCheck
  rw [if_pos htime]
  refine ⟨_, rfl, rfl, rfl, ?_, ?_⟩
  · exact lookupTask_delTask st.active_tasks task_id
  · simp

/-- A concrete running task whose sink never receives the sentinel. -/
def runningTask : TerminalManager.TerminalTask :=
  { task_id := "t1", command := "sleep 999", phase := "recon",
    tool_category := "network", expected_outcome := "output", start_time := 0,
    process := some false, output_file := "terminal_results/output_t1.txt",
    status := "running", return_code := none, output := "", error := "",
    execution_time := 0 }

/-- C5 witness: polling `runningTask` at time 121 (timeout 120, empty sink)
marks it `"timeout"`, calls `terminate()` on its handle and moves it to the
completed partition. -/
theorem tracker_timeout_transition_witness :
    ∃ t, (TerminalManager.check_task_status 120 (fun _ => none) 121
            ⟨[("t1", runningTask)], []⟩ "t1").1 = some t
      ∧ t.status = "timeout"
      ∧ t.process = runningTask.process.map (fun _ => true)
      ∧ TerminalManager.lookupTask
          (TerminalManager.check_task_status 120 (fun _ => none) 121
            ⟨[("t1", runningTask)], []⟩ "t1").2.active_tasks "t1" = none
      ∧ t ∈ (TerminalManager.check_task_status 120 (fun _ => none) 121
            ⟨[("t1", runningTask)], []⟩ "t1").2.completed_tasks :=
  tracker_timeout_transition 120 (fun _ => none) 121 ⟨[("t1", runningTask)], []⟩
    "t1" runningTask (by decide) (fun c h => by cases h) (by decide)

/-- A concrete task that has already reached the terminal `"completed"`
state and accordingly lives in the completed partition of the registry. -/
def termDoneTask : TerminalManager.TerminalTask :=
  { task_id := "t1", command := "echo hi", phase := "recon",
    tool_category := "network", expected_outcome := "output", start_time := 0,
    process := some false, output_file := "terminal_results/output_t1.txt",
    status := "completed", return_code := some 0, output := "hi", error := "",
    execution_time := 3 }

/-- The registry after `termDoneTask` reached its terminal state. -/
def termDoneState : TerminalManager.TMState := ⟨[], [termDoneTask]⟩

/-- C6 counterexample: `check_task_status` on the id of an already-terminal
task does **not** return the identical terminal state — it returns `None`,
because terminal tasks have been removed from `active_tasks` and the
function answers `None` for any id not in `active_tasks`. -/
theorem check_status_terminal_returns_none_cex :
    termDoneTask.status = "completed"
  ∧ termDoneTask ∈ termDoneState.completed_tasks
  ∧ (TerminalManager.check_task_status 120 (fun _ => none) 5 termDoneState "t1").1
      = none
  ∧ (TerminalManager.check_task_status 120 (fun _ => none) 5 termDoneState "t1").1
      ≠ some termDoneTask := by decide

/-- C6 (amended): `check_task_status` on a task id absent from the active
registry — in particular on any already-terminal task — returns `None`
rather than the terminal task, performs no transition, never reads or
re-parses the sink (the result is the same for every `sink` and `now`), and
leaves the registry unchanged; repeated calls therefore return the
identical result. -/
theorem check_status_nonactive_unchanged (timeout : Nat)
    (sink : String → Option String) (now : Nat)
    (st : TerminalManager.TMState) (task_id : String)
    (h : TerminalManager.lookupTask st.active_tasks task_id = none) :
    TerminalManager.check_task_status timeout sink now st task_id = (none, st) :=
  checkStatusInactive timeout sink now st task_id h

/-- C6 witness: polling the registry that holds only the terminal
`termDoneTask` returns `None` and leaves the registry untouched. -/
theorem check_status_nonactive_unchanged_witness :
    TerminalManager.check_task_status 120 (fun _ => none) 7 termDoneState "t1"
      = (none, termDoneState) :=
  check_status_nonactive_unchanged 120 (fun _ => none) 7 termDoneState "t1"
    (by decide)

/-- C7: `wait_for_tasks` on a set of ids that are all already terminal does
**not** return immediately — it never returns at all: `check_task_status`
answers `None` for every id absent from `active_tasks`, so no id is ever
removed from the remaining set and the `while` loop sleeps forever
(`none` for every fuel bound on the number of loop iterations). -/
theorem wait_for_terminal_ids_loops_forever :
    termDoneTask.status = "completed"
  ∧ termDoneTask.task_id = "t1"
  ∧ ∀ fuel : Nat,
      TerminalManager.wait_for_tasks 120 (fun _ => none) (fun _ => 0) fuel
        termDoneState ["t1"] = none := by
  refine ⟨rfl, rfl, fun fuel => ?_⟩
  unfold TerminalManager.wait_for_tasks
  have hd : TerminalManager.dedupFirst [] ["t1"] = ["t1"] := rfl
  rw [hd]
  exact waitLoop_stuck 120 (fun _ => none) (fun _ => 0) fuel 0 termDoneState
    ["t1"] [] (by decide) (fun id _ => rfl)

/-- C8: a `collect_results:` call naming an id that was never launched does
not return a result set omitting that id — it never returns: its inner
`wait_for_tasks` loop polls the unknown id forever (`none` for every fuel).
The read-only projection `get_task_results` itself would indeed simply omit
the unknown id. -/
theorem collect_results_unknown_id_loops_forever :
    (∀ fuel : Nat,
       CommandExecutor.collect_parallel_results 120 (fun _ => none) (fun _ => 0)
         fuel ⟨[], []⟩ "collect_results:zz1" = none)
  ∧ TerminalManager.get_task_results ⟨[], []⟩ ["zz1"] = [] := by
  constructor
  · intro fuel
    unfold CommandExecutor.collect_parallel_results
    have hids :
        ((PyStr.pySplitChar ','
            (PyStr.pyReplace "collect_results:zz1" "collect_results:" "")).map
          PyStr.pyStrip).filter (fun t => t ≠ "") = ["zz1"] := by decide
    rw [hids]
    have hw : TerminalManager.wait_for_tasks 120 (fun _ => none) (fun _ => 0)
        fuel ⟨[], []⟩ ["zz1"] = none := by
      unfold TerminalManager.wait_for_tasks
      have hd : TerminalManager.dedupFirst [] ["zz1"] = ["zz1"] := rfl
      rw [hd]
      exact waitLoop_stuck 120 (fun _ => none) (fun _ => 0) fuel 0 ⟨[], []⟩
        ["zz1"] [] (by decide) (fun id _ => rfl)
    simp [hw]
  · rfl

/-- C9: the `parallel_execute:` branch of the v2 Router parses its payload
by splitting on `;` and trimming each segment; empty segments are silently
discarded (the parsed list is exactly the strips of the non-blank raw
segments, in order, and contains no empty string), zero remaining segments
yield the error triple (return code `-1`, error flag set), and a non-empty
segment list yields a success triple (return code `0`, error flag clear)
delegating to the Parallel Executor. -/
theorem parallel_dispatch_parse_and_error (env : CommandExecutorV2.PEnv)
    (command : String) :
    (CommandExecutorV2.parseParallelPayload command
       = ((PyStr.pySplitChar ';'
             (PyStr.pyStrip (PyStr.pyReplace command "parallel_execute:" ""))).filter
            (fun s => PyStr.pyStrip s ≠ "")).map PyStr.pyStrip)
  ∧ (∀ c ∈ CommandExecutorV2.parseParallelPayload command, c ≠ "")
  ∧ (CommandExecutorV2.parseParallelPayload command = [] →
       CommandExecutorV2.execute_command_parallel env command
         = ("No valid commands provided for parallel execution", -1, true))
  ∧ (CommandExecutorV2.parseParallelPayload command ≠ [] →
       (CommandExecutorV2.execute_command_parallel env command).2.1 = 0
       ∧ (CommandExecutorV2.execute_command_parallel env command).2.2 = false) := by
  refine ⟨?_, ?_, ?_, ?_⟩
  · unfold CommandExecutorV2.parseParallelPayload
    rw [List.filter_map]
    rfl
  · intro c hc
    unfold CommandExecutorV2.parseParallelPayload at hc
    simp only [List.mem_filter, decide_eq_true_eq] at hc
    exact hc.2
  · intro h
    unfold CommandExecutorV2.execute_command_parallel
    rw [if_pos h]
  · intro h
    unfold CommandExecutorV2.execute_command_parallel
    rw [if_neg h]
    exact ⟨rfl, rfl⟩

/-- Environment for the C9 witness dispatch. -/
def envDispatch : CommandExecutorV2.PEnv :=
  { t0 := 0, returnCode := fun _ => 0, output := fun _ => "", finish := fun _ => 0 }

/-- C9 witness: the payload `" ls ; ; pwd"` parses to `["ls", "pwd"]`
(middle empty segment discarded, whitespace trimmed) and dispatches as a
success triple; the all-blank payload `" ;  ; "` parses to zero segments
and yields the error triple. -/
theorem parallel_dispatch_parse_and_error_witness :
    CommandExecutorV2.parseParallelPayload "parallel_execute: ls ; ; pwd"
      = ["ls", "pwd"]
  ∧ (CommandExecutorV2.execute_command_parallel envDispatch
      "parallel_execute: ls ; ; pwd").2.1 = 0
  ∧ CommandExecutorV2.execute_command_parallel envDispatch
      "parallel_execute: ;  ; "
      = ("No valid commands provided for parallel execution", -1, true) := by
  have h1 := parallel_dispatch_parse_and_error envDispatch
    "parallel_execute: ls ; ; pwd"
  have h2 := parallel_dispatch_parse_and_error envDispatch
    "parallel_execute: ;  ; "
  exact ⟨by decide, (h1.2.2.2 (by decide)).1, h2.2.2.1 (by decide)⟩

section AnalyzeHelpers

open TerminalManager

/-- Each `analyze_results` loop step increments exactly one of the three
status counters and leaves the total unchanged. -/
lemma analyzeStep_counts (a : Analysis) (kv : String × ResultEntry) :
    ((analyzeStep a kv).successful_tasks + (analyzeStep a kv).failed_tasks
        + (analyzeStep a kv).timeout_tasks
      = a.successful_tasks + a.failed_tasks + a.timeout_tasks + 1)
  ∧ (analyzeStep a kv).total_tasks = a.total_tasks := by
  simp only [analyzeStep]
  split_ifs <;> simp <;> try omega

/-- Folding `analyzeStep` over a result list adds the list's length to the
sum of the three counters and preserves the total. -/
lemma analyzeFold_counts :
    ∀ (l : List (String × ResultEntry)) (a : Analysis),
      ((l.foldl analyzeStep a).successful_tasks
          + (l.foldl analyzeStep a).failed_tasks
          + (l.foldl analyzeStep a).timeout_tasks
        = a.successful_tasks + a.failed_tasks + a.timeout_tasks + l.length)
      ∧ (l.foldl analyzeStep a).total_tasks = a.total_tasks := by
  intro l
  induction l with
  | nil => intro a; exact ⟨rfl, rfl⟩
  | cons kv rest ih =>
    intro a
    simp only [List.foldl_cons, List.length_cons]
    have hstep := analyzeStep_counts a kv
    have hrest := ih (analyzeStep a kv)
    exact ⟨by omega, by rw [hrest.2, hstep.2]⟩

end AnalyzeHelpers

/-- C10: on every non-empty result collection, `analyze_results` returns an
analysis whose `successful`, `failed` and `timeout` counters partition the
total task count (which equals the number of results); non-emptiness is
required because the summary line divides by the total (`analyze_results`
of an empty collection raises `ZeroDivisionError`, modelled as `none`). -/
theorem analyze_results_status_partition
    (results : List (String × TerminalManager.ResultEntry))
    (h : results ≠ []) :
    ∃ a, TerminalManager.analyze_results results = some a
      ∧ a.successful_tasks + a.failed_tasks + a.timeout_tasks = a.total_tasks
      ∧ a.total_tasks = results.length := by
  unfold TerminalManager.analyze_results
  rw [if_neg (by simpa using h)]
  refine ⟨_, rfl, ?_, ?_⟩
  · have hc := analyzeFold_counts results
      { total_tasks := results.length, successful_tasks := 0, failed_tasks := 0,
        timeout_tasks := 0, total_execution_time := 0, findings := [],
        recommendations := [], summary := "" }
    simp only []
    rw [hc.1, hc.2]
    simp
  · have hc := analyzeFold_counts results
      { total_tasks := results.length, successful_tasks := 0, failed_tasks := 0,
        timeout_tasks := 0, total_execution_time := 0, findings := [],
        recommendations := [], summary := "" }
    simpa using hc.2

/-- A concrete completed result entry for the C10 witness. -/
def doneEntry : TerminalManager.ResultEntry :=
  { command := "echo hi", phase := "recon", tool_category := "network",
    expected_outcome := "output", status := "completed", return_code := some 0,
    execution_time := 3, output := "hi", error := "" }

/-- C10 witness: a singleton result collection is analyzed successfully and
its counters partition the total of 1. -/
theorem analyze_results_status_partition_witness :
    ([("t1", doneEntry)] : List (String × TerminalManager.ResultEntry)) ≠ []
  ∧ ∃ a, TerminalManager.analyze_results [("t1", doneEntry)] = some a
      ∧ a.successful_tasks + a.failed_tasks + a.timeout_tasks = a.total_tasks
      ∧ a.total_tasks = 1 := by
  refine ⟨by decide, ?_⟩
  obtain ⟨a, h1, h2, h3⟩ :=
    analyze_results_status_partition [("t1", doneEntry)] (by decide)
  exact ⟨a, h1, h2, h3⟩
